import Mathlib

/-
Verification development for the legal document analyzer.

Shallow embedding of the TypeScript sources:
  src/lib/ml-classifier.ts             (clause classification)
  src/lib/risk-assessment-engine.ts    (risk scoring and assessment)
  src/lib/client-side-abstractive.ts   (abstractive summarizer)
  src/lib/multilingual-summarizer.ts   (multilingual batch summarizer)

Modelling conventions:
  - JavaScript numbers are modelled as rationals; array indices as naturals.
  - JavaScript strings are Lean strings; toLowerCase and includes act on the
    underlying character lists.
  - Array.prototype.sort with a comparator is modelled by the stable
    List.insertionSort on the corresponding order relation: for a
    consistent comparator the stable sort required of JavaScript engines
    determines the output uniquely, and insertion sort implements it.
  - Effectful collaborators (the translation service, the random-dependent
    filler-sentence generator, the regex match counters feeding the
    confidence formula) are oracle parameters, universally quantified in
    every theorem, so each theorem holds for every possible behaviour of
    those collaborators.
-/

/-! ## JavaScript primitives -/

/-- JavaScript Math.round: round half toward positive infinity. -/
def jsRound (q : ℚ) : ℤ := ⌊q + 1/2⌋

/-- Lowercased character list of a string, modelling String.prototype.toLowerCase. -/
def lowerStr (s : String) : List Char := s.toList.map Char.toLower

/-- String.prototype.includes on character lists: pat occurs contiguously in hay. -/
def jsIncludesL (pat : List Char) : List Char → Bool
  | [] => pat.isEmpty
  | c :: rest => pat.isPrefixOf (c :: rest) || jsIncludesL pat rest

/-- Containment of a pattern string in an already-lowercased character list. -/
def jsIncludes (hay : List Char) (pat : String) : Bool := jsIncludesL pat.toList hay

theorem jsIncludesL_iff (pat : List Char) :
    ∀ hay : List Char, jsIncludesL pat hay = true ↔ pat <:+: hay := by
  intro hay
  induction hay with
  | nil => simp [jsIncludesL, List.infix_nil, List.isEmpty_iff]
  | cons c rest ih =>
    simp [jsIncludesL, List.infix_cons_iff, ih, Bool.or_eq_true]

/-! ## Classifier data model (ml-classifier.ts) -/

inductive ClauseType
  | termination
  | nda
  | payment
  | liability
  | intellectual_property
deriving DecidableEq, Repr

/-- The string this clause type carries at runtime in the TypeScript union. -/
def clauseTypeStr : ClauseType → String
  | .termination => "termination"
  | .nda => "nda"
  | .payment => "payment"
  | .liability => "liability"
  | .intellectual_property => "intellectual_property"

inductive RiskLevel
  | low
  | medium
  | high
deriving DecidableEq, Repr

structure ClauseMatch where
  type : ClauseType
  text : String
  confidence : ℚ
  startIndex : ℕ
  endIndex : ℕ
  riskLevel : RiskLevel
  explanation : String
deriving DecidableEq, Repr

structure ClassificationSummary where
  totalClauses : ℕ
  highRiskClauses : ℕ
  mediumRiskClauses : ℕ
  lowRiskClauses : ℕ
deriving DecidableEq, Repr

structure ClassificationResult where
  clauses : List ClauseMatch
  summary : ClassificationSummary
deriving DecidableEq, Repr

/-! ## calculateConfidence (ml-classifier.ts, lines 137-155)

The two corpus statistics feeding the formula, the number of regex matches
(relevantWords) and the number of context words longer than two characters
(contextWords), together with the context text length, are taken as natural
number parameters: the theorems below hold for all of their values, hence
for whatever the regex engine produces on any input text. -/

def calculateConfidence (relevantWords contextWords textLength : ℕ) : ℚ :=
  let baseConfidence : ℚ := 0.75
  let lengthBonus : ℚ := min 0.15 ((textLength : ℚ) / 1000)
  let confidence : ℚ :=
    min 0.98 (baseConfidence + ((relevantWords : ℚ) / (max (contextWords : ℚ) 10)) * 0.2 + lengthBonus)
  (jsRound (confidence * 100) : ℚ) / 100

/-! ## Deduplication, sorting and summary of classifyDocument
     (ml-classifier.ts, lines 263-286)

The list of raw matches accumulated over the five clause types is the
parameter; the definitions below embed the duplicate filter, the
confidence-descending sort, the top-20 truncation and the summary tally. -/

/-- The findIndex predicate of the duplicate filter: same type, start offsets
within 100 characters. -/
def dupPred (clause : ClauseMatch) (c : ClauseMatch) : Bool :=
  decide ((c.startIndex : ℤ) - (clause.startIndex : ℤ) < 100 ∧
          (clause.startIndex : ℤ) - (c.startIndex : ℤ) < 100) &&
  decide (c.type = clause.type)

/-- A clause at position i of the accumulated list survives the filter iff
findIndex over the whole list returns i itself. -/
def keepIdx (allClauses : List ClauseMatch) (i : ℕ) (clause : ClauseMatch) : Bool :=
  allClauses.findIdx (dupPred clause) == i

/-- The filter step of classifyDocument: keep each match only if it is the
first of its proximity-and-type group. -/
def uniqueFiltered (allClauses : List ClauseMatch) : List ClauseMatch :=
  (allClauses.enum.filter fun p => keepIdx allClauses p.1 p.2).map Prod.snd

/-- Filter, sort by confidence descending (stable), truncate to the top 20. -/
def uniqueClauses (allClauses : List ClauseMatch) : List ClauseMatch :=
  (List.insertionSort (fun a b => b.confidence ≤ a.confidence)
    (uniqueFiltered allClauses)).take 20

/-- Summary statistics of classifyDocument. -/
def classifySummary (uniq : List ClauseMatch) : ClassificationSummary :=
  { totalClauses := uniq.length
    highRiskClauses := (uniq.filter fun c => decide (c.riskLevel = RiskLevel.high)).length
    mediumRiskClauses := (uniq.filter fun c => decide (c.riskLevel = RiskLevel.medium)).length
    lowRiskClauses := (uniq.filter fun c => decide (c.riskLevel = RiskLevel.low)).length }

/-- The ClassificationResult assembled by classifyDocument from the
accumulated raw matches. -/
def classifyDocumentResult (allClauses : List ClauseMatch) : ClassificationResult :=
  let uniq := uniqueClauses allClauses
  { clauses := uniq, summary := classifySummary uniq }

/-! ## Risk assessment engine data model (risk-assessment-engine.ts) -/

inductive Severity
  | critical
  | high
  | medium
  | low
deriving DecidableEq, Repr

inductive RiskCategory
  | financial
  | legal
  | operational
  | compliance
deriving DecidableEq, Repr

structure RiskFactor where
  id : String
  category : RiskCategory
  severity : Severity
  title : String
  description : String
  impact : String
  recommendation : String
  clauses : List String
deriving DecidableEq, Repr

inductive Grade
  | A
  | B
  | C
  | D
  | F
deriving DecidableEq, Repr

structure WeightEntry where
  high : ℚ
  medium : ℚ
  low : ℚ
deriving DecidableEq, Repr

/-- Risk scoring weights for the clause types (lines 37-43). -/
def RISK_WEIGHTS : ClauseType → WeightEntry
  | .termination => ⟨25, 15, 5⟩
  | .liability => ⟨30, 20, 8⟩
  | .payment => ⟨20, 12, 4⟩
  | .nda => ⟨15, 10, 3⟩
  | .intellectual_property => ⟨18, 12, 5⟩

/-- Indexing a weight entry by the risk level of a clause. -/
def weightAt (w : WeightEntry) : RiskLevel → ℚ
  | .high => w.high
  | .medium => w.medium
  | .low => w.low

/-! ## calculateOverallRiskScore (lines 91-105) and calculateRiskGrade (107-113) -/

def totalScore (clauses : List ClauseMatch) : ℚ :=
  clauses.foldl (fun acc c => acc + weightAt (RISK_WEIGHTS c.type) c.riskLevel * c.confidence) 0

def maxPossibleScore (clauses : List ClauseMatch) : ℚ :=
  clauses.foldl (fun acc c => acc + (RISK_WEIGHTS c.type).high) 0

def calculateOverallRiskScore (result : ClassificationResult) : ℤ :=
  min 100 (jsRound (if 0 < maxPossibleScore result.clauses then
    totalScore result.clauses / maxPossibleScore result.clauses * 100 else 0))

def calculateRiskGrade (score : ℤ) : Grade :=
  if score ≤ 20 then .A
  else if score ≤ 40 then .B
  else if score ≤ 60 then .C
  else if score ≤ 80 then .D
  else .F

/-! ## Specification-side restatement of the overall score formula.

These definitions follow the words of the specification, not the code:
the numerator and denominator are written as sums over mapped lists and the
result is rounded then clamped to the interval 0..100, with an empty clause
list scoring 0.  Claim C2 compares them with the code-side
calculateOverallRiskScore above. -/

def specScoreNumer (clauses : List ClauseMatch) : ℚ :=
  (clauses.map fun c => weightAt (RISK_WEIGHTS c.type) c.riskLevel * c.confidence).sum

def specScoreDenom (clauses : List ClauseMatch) : ℚ :=
  (clauses.map fun c => (RISK_WEIGHTS c.type).high).sum

def specOverallScore (clauses : List ClauseMatch) : ℤ :=
  match clauses with
  | [] => 0
  | _ :: _ => max 0 (min 100 (jsRound (specScoreNumer clauses / specScoreDenom clauses * 100)))

/-- Sample clause for the C2 witness: a single high-risk liability clause
with confidence 0.9; the engine scores it round(0.9 times 30 / 30 times 100) = 90. -/
def c2SampleClause : ClauseMatch :=
  { type := .liability, text := "liability clause", confidence := 0.9,
    startIndex := 0, endIndex := 10, riskLevel := .high, explanation := "" }

def c2SampleResult : ClassificationResult :=
  { clauses := [c2SampleClause],
    summary := ⟨1, 1, 0, 0⟩ }

/-! ## Risk factors (risk-assessment-engine.ts, lines 46-54 and 115-261) -/

/-- Critical risk patterns that require immediate attention (lines 46-54). -/
def CRITICAL_PATTERNS : List String :=
  ["unlimited liability",
   "personal guarantee",
   "immediate termination without cause",
   "waive all rights",
   "perpetual license",
   "no limitation of damages",
   "indemnify against all claims"]

/-- charAt(0).toUpperCase() + slice(1). -/
def capFirst (s : String) : String :=
  match s.toList with
  | [] => ""
  | c :: cs => String.mk (c.toUpper :: cs)

/-- The critical-pattern risk factors pushed by identifyRiskFactors
(lines 120-133). -/
def criticalFactors (result : ClassificationResult) (lowerText : List Char) : List RiskFactor :=
  CRITICAL_PATTERNS.enum.filterMap fun p =>
    if jsIncludes lowerText p.2 then
      some { id := "critical-" ++ toString p.1
             category := .legal
             severity := .critical
             title := "Critical Risk: " ++ capFirst p.2
             description := "Document contains \"" ++ p.2 ++ "\" which poses significant legal risk."
             impact := "Could result in unlimited financial exposure or loss of rights."
             recommendation := "Immediate legal review required. Consider negotiating alternative terms."
             clauses := (result.clauses.filter fun c => jsIncludes (lowerStr c.text) p.2).map
               fun c => clauseTypeStr c.type }
    else none

/-- Mapping of clause types to risk categories (lines 172-181). -/
def getClauseCategoryMapping : ClauseType → RiskCategory
  | .payment => .financial
  | .liability => .legal
  | .termination => .operational
  | .nda => .compliance
  | .intellectual_property => .legal

/-- Impact text table (lines 183-205); entries absent from the table fall
back to the generic review text. -/
def getImpactDescription : ClauseType → RiskLevel → String
  | .termination, .high => "Sudden contract termination could disrupt business operations and result in lost revenue."
  | .termination, .medium => "Contract termination may require advance planning and transition period."
  | .termination, .low => "Termination process is well-defined with adequate protections."
  | .liability, .high => "Unlimited liability exposure could result in significant financial losses."
  | .liability, .medium => "Limited liability with reasonable caps on damages."
  | .liability, .low => "Well-protected with mutual liability limitations."
  | .payment, .high => "Unfavorable payment terms could impact cash flow and profitability."
  | .payment, .medium => "Standard payment terms with reasonable collection procedures."
  | .payment, .low => "Fair payment structure with clear terms."
  | _, _ => "Potential impact requires legal review."

/-- Recommendation text table (lines 207-230); entries absent from the
table fall back to the generic counsel text. -/
def getRecommendation : ClauseType → RiskLevel → String
  | .termination, .high => "Negotiate for reasonable notice period and cure provisions."
  | .termination, .medium => "Review termination triggers and ensure mutual protections."
  | .termination, .low => "Terms appear balanced and fair."
  | .liability, .high => "Negotiate liability caps and mutual indemnification clauses."
  | .liability, .medium => "Review indemnification scope and consider additional protections."
  | .liability, .low => "Liability terms appear reasonable."
  | .payment, .high => "Negotiate more favorable payment terms and dispute resolution."
  | .payment, .medium => "Review late payment penalties and collection procedures."
  | .payment, .low => "Payment terms appear fair and reasonable."
  | _, _ => "Consult legal counsel for detailed review."

/-- The high-severity factors derived from clauses the classifier marked
high risk (lines 136-149). -/
def highRiskFactors (result : ClassificationResult) : List RiskFactor :=
  ((result.clauses.filter fun c => decide (c.riskLevel = RiskLevel.high)).enum.map fun p =>
    { id := "high-risk-" ++ toString p.1
      category := getClauseCategoryMapping p.2.type
      severity := .high
      title := "High Risk " ++ capFirst (clauseTypeStr p.2.type) ++ " Clause"
      description := p.2.explanation
      impact := getImpactDescription p.2.type .high
      recommendation := getRecommendation p.2.type .high
      clauses := [clauseTypeStr p.2.type] })

structure Protection where
  title : String
  description : String
  impact : String
  recommendation : String
deriving DecidableEq, Repr

/-- identifyMissingProtections (lines 232-261). -/
def identifyMissingProtections (lowerText : List Char) : List Protection :=
  (if !(jsIncludes lowerText "force majeure") && !(jsIncludes lowerText "act of god") then
    [{ title := "Force Majeure Clause"
       description := "No force majeure protection found in the document."
       impact := "May be liable for performance even during unforeseeable circumstances."
       recommendation := "Add force majeure clause to protect against uncontrollable events." }]
   else []) ++
  (if !(jsIncludes lowerText "arbitration") && !(jsIncludes lowerText "mediation") &&
      !(jsIncludes lowerText "dispute resolution") then
    [{ title := "Dispute Resolution Mechanism"
       description := "No clear dispute resolution process specified."
       impact := "Disputes may result in costly litigation without clear resolution path."
       recommendation := "Include arbitration or mediation clause for efficient dispute resolution." }]
   else [])

/-- The medium-severity missing-protection factors (lines 152-164). -/
def missingFactors (lowerText : List Char) : List RiskFactor :=
  (identifyMissingProtections lowerText).enum.map fun p =>
    { id := "missing-" ++ toString p.1
      category := .legal
      severity := .medium
      title := "Missing Protection: " ++ p.2.title
      description := p.2.description
      impact := p.2.impact
      recommendation := p.2.recommendation
      clauses := [] }

/-- severityOrder of the final sort (line 167). -/
def severityRank : Severity → ℤ
  | .critical => 4
  | .high => 3
  | .medium => 2
  | .low => 1

/-- identifyRiskFactors (lines 115-170): the three factor sources
concatenated, then sorted by descending severity rank with the stable
comparator sort. -/
def identifyRiskFactors (result : ClassificationResult) (documentText : String) : List RiskFactor :=
  List.insertionSort (fun a b => severityRank b.severity ≤ severityRank a.severity)
    (criticalFactors result (lowerStr documentText) ++ highRiskFactors result ++
      missingFactors (lowerStr documentText))

/-! ## Recommendations, compliance, financial impact, assessRisk
     (risk-assessment-engine.ts, lines 263-345) -/

/-- Spread of a JavaScript Set built from a list: first occurrence of each
element is kept, in insertion order. -/
def jsSetDedup (seen : List String) : List String → List String
  | [] => []
  | x :: xs => if x ∈ seen then jsSetDedup seen xs else x :: jsSetDedup (x :: seen) xs

structure Recommendations where
  immediate : List String
  shortTerm : List String
  longTerm : List String
deriving DecidableEq, Repr

/-- generateRecommendations (lines 263-292); the classification result
parameter of the source is unused in its body and omitted here. -/
def generateRecommendations (riskFactors : List RiskFactor) : Recommendations :=
  let immediate := (riskFactors.filter fun rf =>
    decide (rf.severity = Severity.critical) || decide (rf.severity = Severity.high)).map
      fun rf => rf.recommendation
  let shortTerm := (riskFactors.filter fun rf => decide (rf.severity = Severity.medium)).map
    fun rf => rf.recommendation
  let longTerm := ["Establish regular contract review process with legal counsel.",
    "Create standardized contract templates with protective clauses.",
    "Implement contract management system for tracking key dates and obligations."]
  { immediate := jsSetDedup [] immediate
    shortTerm := jsSetDedup [] shortTerm
    longTerm := jsSetDedup [] longTerm }

/-- Compliance risk keyword sets (lines 57-62). -/
def COMPLIANCE_RISKS : List (String × List String) :=
  [("gdpr", ["personal data", "data processing", "data subject rights", "privacy policy"]),
   ("employment", ["at-will employment", "non-compete", "overtime", "benefits"]),
   ("consumer", ["consumer protection", "warranty", "return policy", "dispute resolution"]),
   ("securities", ["investment", "securities", "disclosure", "material information"])]

structure ComplianceIssue where
  jurisdiction : String
  issues : List String
  severity : Severity
deriving DecidableEq, Repr

/-- assessComplianceRisks (lines 294-313). -/
def assessComplianceRisks (documentText : String) : List ComplianceIssue :=
  let lowerText := lowerStr documentText
  COMPLIANCE_RISKS.filterMap fun jk =>
    let found := jk.2.filter fun keyword => jsIncludes lowerText keyword
    if found.length > 0 then
      some { jurisdiction := jk.1.toUpper
             issues := found.map fun keyword =>
               "Document references " ++ keyword ++ " - ensure compliance with " ++
                 jk.1.toUpper ++ " regulations."
             severity := if found.length > 2 then .high else .medium }
    else none

structure FinancialImpact where
  potentialLiability : String
  costRisk : Severity
  description : String
deriving DecidableEq, Repr

/-- assessFinancialImpact (lines 315-342). -/
def assessFinancialImpact (result : ClassificationResult) (documentText : String) :
    FinancialImpact :=
  if jsIncludes (lowerStr documentText) "unlimited liability" ||
     jsIncludes (lowerStr documentText) "personal guarantee" then
    { potentialLiability := "Unlimited", costRisk := .critical
      description := "Unlimited liability exposure poses critical financial risk." }
  else if (result.clauses.filter fun c => decide (c.riskLevel = RiskLevel.high)).length > 3 then
    { potentialLiability := "Significant", costRisk := .high
      description := "Multiple high-risk clauses create substantial financial exposure." }
  else if (result.clauses.filter fun c => decide (c.riskLevel = RiskLevel.high)).length > 1 then
    { potentialLiability := "Moderate", costRisk := .medium
      description := "Some financial risk present but within manageable limits." }
  else
    { potentialLiability := "Limited", costRisk := .low
      description := "Financial risk appears manageable with current terms." }

structure RiskAssessment where
  overallRiskScore : ℤ
  riskGrade : Grade
  riskFactors : List RiskFactor
  recommendations : Recommendations
  complianceIssues : List ComplianceIssue
  financialImpact : FinancialImpact
deriving DecidableEq, Repr

/-- assessRisk (lines 64-89), the full assessment record. -/
def assessRisk (classificationResult : ClassificationResult) (documentText : String) :
    RiskAssessment :=
  { overallRiskScore := calculateOverallRiskScore classificationResult
    riskGrade := calculateRiskGrade (calculateOverallRiskScore classificationResult)
    riskFactors := identifyRiskFactors classificationResult documentText
    recommendations := generateRecommendations (identifyRiskFactors classificationResult documentText)
    complianceIssues := assessComplianceRisks documentText
    financialImpact := assessFinancialImpact classificationResult documentText }

/-- An empty classification result, used to instantiate witnesses. -/
def emptyResult : ClassificationResult := { clauses := [], summary := ⟨0, 0, 0, 0⟩ }

/-- Concrete document text for the C3 witness; the critical pattern occurs
in mixed case. -/
def c3SampleText : String := "Includes UNLIMITED LIABILITY terms."

/-- The factor identifyRiskFactors pushes for the critical pattern
"unlimited liability" (pattern index 0). -/
def c3Factor (res : ClassificationResult) : RiskFactor :=
  { id := "critical-" ++ toString 0
    category := .legal
    severity := .critical
    title := "Critical Risk: " ++ capFirst "unlimited liability"
    description := "Document contains \"" ++ "unlimited liability" ++
      "\" which poses significant legal risk."
    impact := "Could result in unlimited financial exposure or loss of rights."
    recommendation := "Immediate legal review required. Consider negotiating alternative terms."
    clauses := (res.clauses.filter fun c => jsIncludes (lowerStr c.text) "unlimited liability").map
      fun c => clauseTypeStr c.type }

/-- Two same-type matches 50 characters apart for the C4 counterexample:
the first one in accumulation order has the lower confidence.  The
confidences 0.8 and 0.9 are written as explicit reduced fractions so that
the kernel can evaluate the comparisons. -/
def c4LowFirst : ClauseMatch :=
  { type := .liability, text := "first liability context window",
    confidence := ⟨4, 5, by decide, by decide⟩,
    startIndex := 0, endIndex := 400, riskLevel := .medium, explanation := "" }

def c4HighSecond : ClauseMatch :=
  { type := .liability, text := "second liability context window",
    confidence := ⟨9, 10, by decide, by decide⟩,
    startIndex := 50, endIndex := 450, riskLevel := .high, explanation := "" }

/-! ## Abstractive summarizer (client-side-abstractive.ts)

The theme map, the relationship map, the preserved original terms, the
random-dependent filler content of generateAdditionalContent and the
numeric summary confidence are produced by regex- and randomness-driven
subsystems; they enter the definitions below as parameters, and every
theorem about the summarizer quantifies over them.  The result fields
processingTime (wall clock) and detailedSections are not modelled. -/

/-- The characters of the sentence-splitting class [.!?]. -/
def isSentenceEnd (c : Char) : Bool := c == '.' || c == '!' || c == '?'

/-- One step (right to left) of String.prototype.split on a regex matching
runs of separator characters; the boolean records whether the character to
the right was a separator. -/
def splitRunStep (isSep : Char → Bool) (c : Char) :
    List (List Char) × Bool → List (List Char) × Bool
  | (chunks, lastSep) =>
    if isSep c then
      if lastSep then (chunks, true) else ([] :: chunks, true)
    else
      match chunks with
      | [] => ([[c]], false)
      | h :: t => ((c :: h) :: t, false)

/-- String.prototype.split on a regex matching runs of separator
characters, such as [.!?]+ or whitespace runs. -/
def jsSplitRuns (isSep : Char → Bool) (text : String) : List String :=
  ((text.toList.foldr (splitRunStep isSep) ([[]], false)).1).map fun l => String.mk l

/-- split(/[.!?]+/). -/
def jsSplitSentences (text : String) : List String := jsSplitRuns isSentenceEnd text

/-- String.prototype.trim. -/
def jsTrim (s : String) : String :=
  String.mk (((s.toList.dropWhile Char.isWhitespace).reverse.dropWhile
    Char.isWhitespace).reverse)

/-- toLowerCase().startsWith(pat). -/
def lowerStartsWith (s : String) (pat : String) : Bool :=
  pat.toList.isPrefixOf (lowerStr s)

/-- extractOriginalSentences (lines 160-168): split into sentences, trim,
keep those longer than 15 characters, drop the formal endings. -/
def extractOriginalSentences (text : String) : List String :=
  (((jsSplitSentences text).map jsTrim).filter fun s => decide (15 < s.length)).filter
    fun s => !(lowerStartsWith s "whereof") && !(lowerStartsWith s "in witness")

/-- scoreSentenceImportance (lines 309-342). -/
def scoreSentenceImportance (sentence : String) (themes : List (String × ℚ))
    (originalTerms : List String) : ℚ :=
  ((themes.map fun t =>
    if jsIncludesL (lowerStr t.1) (lowerStr sentence) then t.2 * 2 else 0).sum) +
  ((originalTerms.map fun term =>
    if jsIncludesL (lowerStr term) (lowerStr sentence) then (3 : ℚ) else 0).sum) +
  min ((sentence.length : ℚ) / 20) 5 +
  ((["shall", "must", "agreement", "contract", "party",
     "obligation", "liability", "termination"].map fun keyword =>
    if jsIncludesL (lowerStr keyword) (lowerStr sentence) then (2 : ℚ) else 0).sum)

/-- identifySentenceThemes (lines 344-354). -/
def identifySentenceThemes (sentence : String) (themes : List (String × ℚ)) : List String :=
  (themes.filter fun t => jsIncludesL (lowerStr t.1) (lowerStr sentence)).map fun t => t.1

/-- getLegalEnhancement (lines 356-368). -/
def getLegalEnhancement (theme : String) : String :=
  if theme = "contract" then "binding legal obligations"
  else if theme = "payment" then "financial compensation arrangements"
  else if theme = "termination" then "ending provisions"
  else if theme = "liability" then "legal responsibilities"
  else if theme = "confidential" then "privacy protections"
  else if theme = "dispute" then "conflict resolution mechanisms"
  else if theme = "jurisdiction" then "governing law provisions"
  else "legal provisions"

/-- isImportantTerm (lines 370-377). -/
def isImportantTerm (term : String) : Bool :=
  term.toList.any (fun c => c.isDigit) ||
  jsIncludesL "$".toList term.toList ||
  jsIncludesL "%".toList term.toList ||
  jsIncludesL "Pvt".toList term.toList ||
  jsIncludesL "Ltd".toList term.toList ||
  jsIncludesL "Inc".toList term.toList ||
  decide (10 < term.length)

structure ScoredSentenceIdx where
  sentence : String
  score : ℚ
  index : ℕ
deriving DecidableEq, Repr

/-- charAt(0).toLowerCase() + slice(1). -/
def lowerFirst (s : String) : String :=
  match s.toList with
  | [] => ""
  | c :: cs => String.mk (c.toLower :: cs)

/-- The eight transition connectors of the main summary loop (lines 213-217). -/
def summaryTransitions : List String :=
  ["Furthermore,", "Additionally,", "In addition,", "Moreover,",
   "The agreement also provides that", "Moreover, the contract specifies",
   "Additionally, the document states", "Furthermore, the terms include"]

/-- The four transition connectors of the remaining-sentences loop (line 239). -/
def remainingTransitions : List String :=
  ["Additionally,", "Moreover,", "The document further states", "The terms also specify"]

/-- Lines 180-189: score, sort by score descending, take at most 8, restore
document order. -/
def topSummarySentences (originalSentences : List String) (themes : List (String × ℚ))
    (originalTerms : List String) : List ScoredSentenceIdx :=
  List.insertionSort (fun a b => a.index ≤ b.index)
    ((List.insertionSort (fun a b : ScoredSentenceIdx => b.score ≤ a.score)
      (originalSentences.enum.map fun p =>
        { sentence := p.2, score := scoreSentenceImportance p.2 themes originalTerms,
          index := p.1 })).take (min 8 originalSentences.length))

/-- The summary string and the usedTerms set threaded through the main
summary loop. -/
structure SummaryBuild where
  summary : String
  usedTerms : List String
deriving DecidableEq, Repr

/-- Lines 197-207: append the legal enhancement of the first sentence theme
when it was not used before; returns the enhanced sentence and the updated
used-terms set. -/
def enhancedSentence (themes : List (String × ℚ)) (used : List String)
    (sentence : String) : String × List String :=
  match identifySentenceThemes sentence themes with
  | [] => (sentence, used)
  | th :: _ =>
    if String.mk (lowerStr (getLegalEnhancement th)) ∈ used then
      (sentence, used)
    else
      (sentence ++ ", establishing " ++ getLegalEnhancement th,
        String.mk (lowerStr (getLegalEnhancement th)) :: used)

/-- One iteration of the topSentences forEach (lines 195-228). -/
def summaryStep (themes : List (String × ℚ)) (originalTerms : List String)
    (st : SummaryBuild) (p : ℕ × ScoredSentenceIdx) : SummaryBuild :=
  { summary :=
      if p.1 = 0 then (enhancedSentence themes st.usedTerms p.2.sentence).1
      else st.summary ++ " " ++ (summaryTransitions.getD (min (p.1 - 1) 7) "") ++ " " ++
        lowerFirst (enhancedSentence themes st.usedTerms p.2.sentence).1
    usedTerms := originalTerms.foldl (fun acc term =>
      if jsIncludesL (lowerStr term) (lowerStr p.2.sentence) then
        String.mk (lowerStr term) :: acc else acc)
      (enhancedSentence themes st.usedTerms p.2.sentence).2 }

/-- Lines 231-235: original sentences not already used, longer than 20
characters, whose lowercased 20-character head is not an already-used term;
at most 4 of them. -/
def remainingSummarySentences (originalSentences : List String)
    (top : List ScoredSentenceIdx) (used : List String) : List String :=
  ((originalSentences.enum.filter fun p =>
    !(top.any fun ts => ts.index == p.1) && decide (20 < p.2.length) &&
    !(used.contains (String.mk ((lowerStr p.2).take 20)))).map fun p => p.2).take 4

/-- Lines 237-245: append the remaining sentences with their transitions. -/
def appendRemaining (st : String) (remaining : List String) : String :=
  remaining.enum.foldl (fun summary p =>
    if 0 < summary.length then
      summary ++ " " ++ (remainingTransitions.getD (min p.1 3) "") ++ " " ++ lowerFirst p.2
    else p.2) st

/-- Lines 248-256: append up to five unused important original terms. -/
def appendUnusedTerms (summary : String) (originalTerms : List String)
    (used : List String) : String :=
  if 0 < (originalTerms.filter fun term =>
      !(used.contains (String.mk (lowerStr term))) && isImportantTerm term).length ∧
     summary.length < 1500 then
    summary ++ " The agreement specifically addresses " ++
      String.intercalate ", " ((originalTerms.filter fun term =>
        !(used.contains (String.mk (lowerStr term))) && isImportantTerm term).take 5) ++ "."
  else summary

/-- Lines 258-265: when the summary has fewer than ten sentence-like
segments, append the filler produced by the random-dependent
generateAdditionalContent, a parameter here, when it is nonempty. -/
def appendAdditional (summary : String) (additionalContent : String) : String :=
  if (summary.splitOn ". ").length < 10 then
    if additionalContent ≠ "" then summary ++ " " ++ additionalContent else summary
  else summary

/-- The summary built in the nonempty case of
createSummaryFromOriginalSentences (lines 180-267). -/
def buildSummary (originalSentences : List String) (themes : List (String × ℚ))
    (originalTerms : List String) (additionalContent : String) : String :=
  appendAdditional
    (appendUnusedTerms
      (appendRemaining
        ((topSummarySentences originalSentences themes originalTerms).enum.foldl
          (summaryStep themes originalTerms) ⟨"", []⟩).summary
        (remainingSummarySentences originalSentences
          (topSummarySentences originalSentences themes originalTerms)
          ((topSummarySentences originalSentences themes originalTerms).enum.foldl
            (summaryStep themes originalTerms) ⟨"", []⟩).usedTerms))
      originalTerms
      ((topSummarySentences originalSentences themes originalTerms).enum.foldl
        (summaryStep themes originalTerms) ⟨"", []⟩).usedTerms)
    additionalContent

/-- createSummaryFromOriginalSentences (lines 170-268). -/
def createSummaryFromOriginalSentences (originalSentences : List String)
    (themes : List (String × ℚ)) (originalTerms : List String)
    (additionalContent : String) : String :=
  match originalSentences with
  | [] => "The document contains legal provisions and agreements."
  | _ :: _ => buildSummary originalSentences themes originalTerms additionalContent

/-- Lines 387-394: key-point sentences scored with empty terms, sorted by
score descending, top 6. -/
def topKeySentences (originalSentences : List String) (themes : List (String × ℚ)) :
    List String :=
  ((List.insertionSort (fun a b : String × ℚ => b.2 ≤ a.2)
    (originalSentences.map fun s => (s, scoreSentenceImportance s themes []))).take 6).map
    fun p => p.1

/-- Lines 402-407: first 15 space-separated words, with an ellipsis when
that shortens the sentence. -/
def shortenSentence (sentence : String) : String :=
  let shortened := String.intercalate " " ((sentence.splitOn " ").take 15)
  if shortened.length < sentence.length then shortened ++ "..." else shortened

/-- Lines 397-410: top sentences verbatim for the first three, shortened
for the rest. -/
def keyPointsFromTop (top : List String) : List String :=
  top.enum.map fun p => if p.1 < 3 then p.2 else shortenSentence p.2

/-- Lines 413-420: one key point per relationship type while fewer than 8
points exist and the first relationship text is under 100 characters. -/
def addRelationshipPoints (kps : List String) :
    List (String × List String) → List String
  | [] => kps
  | (ty, rels) :: rest =>
    addRelationshipPoints
      (match rels with
       | [] => kps
       | r :: _ =>
         if kps.length < 8 then
           if r.length < 100 then
             kps ++ ["The document specifies " ++ ty ++ " requirements: " ++ r]
           else kps
         else kps)
      rest

/-- Lines 422-425: pad with the filler point until at least 5 exist. -/
def padKeyPoints (kps : List String) : List String :=
  kps ++ List.replicate (5 - kps.length)
    "The agreement establishes important legal frameworks and protections"

/-- extractKeyPointsFromOriginal (lines 379-428). -/
def extractKeyPointsFromOriginal (originalSentences : List String)
    (themes : List (String × ℚ)) (relationships : List (String × List String)) :
    List String :=
  (padKeyPoints (addRelationshipPoints
    (keyPointsFromTop (topKeySentences originalSentences themes)) relationships)).take 8

/-- The summarizer result; processingTime and detailedSections are not
modelled. -/
structure AbstractiveSummaryResult where
  summary : String
  keyPoints : List String
  confidence : ℚ
  method : String
  originalTermsPreserved : List String
deriving DecidableEq, Repr

/-- fallbackSummary (lines 1264-1280): first three sentences whose trimmed
length exceeds 20 characters, joined verbatim, fixed confidence 0.6,
method rule-based. -/
def fallbackSummary (text : String) : AbstractiveSummaryResult :=
  { summary := String.intercalate ". "
      (((jsSplitSentences text).filter fun s => decide (20 < (jsTrim s).length)).take 3) ++ "."
    keyPoints := (((jsSplitSentences text).filter fun s =>
      decide (20 < (jsTrim s).length)).take 3).map jsTrim
    confidence := 0.6
    method := "rule-based"
    originalTermsPreserved := [] }

/-- The result of the try body of generateAbstractiveSummary
(lines 116-153). -/
def normalAbstractiveResult (text : String) (themes : List (String × ℚ))
    (relationships : List (String × List String)) (originalTerms : List String)
    (additionalContent : String) (confidenceValue : ℚ) : AbstractiveSummaryResult :=
  { summary := jsTrim (createSummaryFromOriginalSentences
      (extractOriginalSentences text) themes originalTerms additionalContent)
    keyPoints := extractKeyPointsFromOriginal (extractOriginalSentences text)
      themes relationships
    confidence := confidenceValue
    method := "hybrid"
    originalTermsPreserved := originalTerms }

/-- generateAbstractiveSummary with its catch-all handler (lines 116-158):
the first argument is none when the try body succeeds and some () when any
exception is raised during it, in which case the fallback result is
returned; no exception ever propagates. -/
def generateAbstractiveSummary (exc : Option Unit) (text : String)
    (themes : List (String × ℚ)) (relationships : List (String × List String))
    (originalTerms : List String) (additionalContent : String)
    (confidenceValue : ℚ) : AbstractiveSummaryResult :=
  match exc with
  | some _ => fallbackSummary text
  | none => normalAbstractiveResult text themes relationships originalTerms
      additionalContent confidenceValue

/-- A 55-character document of short fragments for the C7 counterexample:
no sentence passes the over-20-characters filter of the fallback, so the
fallback returns zero key points. -/
def c7Text : String := "aa. bb. cc. dd. ee. ff. gg. hh. ii. jj. kk. ll. mm. nn."

/-! ## Multilingual summarizer (multilingual-summarizer.ts)

The SimpleTranslator collaborator is not part of the analysed sources: the
translator is an oracle indexed by a global call counter, so the theorems
can observe that exactly one translation attempt is made per call, and the
language-name lookup is a parameter. -/

/-- A per-language summary; the field compressionPct models the
compressionRatio percentage of the source. -/
structure SummaryResult where
  language : String
  languageCode : String
  summary : String
  keyPoints : List String
  wordCount : ℕ
  originalLength : ℕ
  compressionPct : ℤ
deriving DecidableEq, Repr

/-- split(/\s+/).filter(word => word.length > 0).length. -/
def countWords (s : String) : ℕ :=
  ((jsSplitRuns Char.isWhitespace s).filter fun w => decide (0 < w.length)).length

/-- translateWithFallback (lines 225-247): empty text returns the empty
string without calling the translator; English returns the text unchanged;
otherwise the translator is called exactly once and a failure yields the
original text behind the warning prefix. -/
def translateWithFallback (tr : ℕ → String → String → Except Unit String)
    (languageNameOf : String → String) (k : ℕ) (text targetLanguage : String) :
    String × ℕ :=
  if (jsTrim text).length = 0 then ("", k)
  else if targetLanguage = "en" then (text, k)
  else
    match tr k text targetLanguage with
    | .ok result => (result, k + 1)
    | .error _ =>
      ("[Translation service temporarily unavailable for " ++
        languageNameOf targetLanguage ++ "]\n\n" ++ text, k + 1)

/-- Lines 318-328: translate the key points one after the other, threading
the call counter. -/
def translateKeyPoints (tr : ℕ → String → String → Except Unit String)
    (languageNameOf : String → String) (lang : String) :
    ℕ → List String → List String × ℕ
  | k, [] => ([], k)
  | k, point :: rest =>
    let r := translateWithFallback tr languageNameOf k point lang
    let rrest := translateKeyPoints tr languageNameOf lang r.2 rest
    (r.1 :: rrest.1, rrest.2)

/-- Lines 306-344: one language of the batch loop of
generateMultilingualSummary, including the word counts and the compression
percentage. -/
def processLanguage (tr : ℕ → String → String → Except Unit String)
    (languageNameOf : String → String) (englishSummary : String)
    (keyPoints : List String) (text : String) (k : ℕ) (langCode : String) :
    SummaryResult × ℕ :=
  let s := if langCode = "en" then (englishSummary, k)
           else translateWithFallback tr languageNameOf k englishSummary langCode
  let pts := if langCode = "en" then (keyPoints, s.2)
             else translateKeyPoints tr languageNameOf langCode s.2 keyPoints
  ({ language := languageNameOf langCode
     languageCode := langCode
     summary := s.1
     keyPoints := pts.1
     wordCount := countWords s.1
     originalLength := countWords text
     compressionPct := if 0 < countWords text then
       jsRound ((countWords s.1 : ℚ) / (countWords text : ℚ) * 100) else 0 }, pts.2)

/-- The batch loop over the requested languages (lines 304-364). -/
def generateMultilingualSummaries (tr : ℕ → String → String → Except Unit String)
    (languageNameOf : String → String) (englishSummary : String)
    (keyPoints : List String) (text : String) :
    ℕ → List String → List SummaryResult × ℕ
  | k, [] => ([], k)
  | k, lang :: rest =>
    ((processLanguage tr languageNameOf englishSummary keyPoints text k lang).1 ::
      (generateMultilingualSummaries tr languageNameOf englishSummary keyPoints text
        (processLanguage tr languageNameOf englishSummary keyPoints text k lang).2 rest).1,
     (generateMultilingualSummaries tr languageNameOf englishSummary keyPoints text
       (processLanguage tr languageNameOf englishSummary keyPoints text k lang).2 rest).2)

/-- An always-failing translator oracle for the C9 witness. -/
def c9Tr : ℕ → String → String → Except Unit String := fun _ _ _ => Except.error ()

/-- A fixed language-name lookup for the C9 witness. -/
def c9Name : String → String := fun _ => "Hindi"

/-! ## Helper lemmas for the score -/

theorem totalScore_eq_sum (clauses : List ClauseMatch) :
    totalScore clauses = specScoreNumer clauses := by
  have key : ∀ (l : List ClauseMatch) (a : ℚ),
      l.foldl (fun acc c => acc + weightAt (RISK_WEIGHTS c.type) c.riskLevel * c.confidence) a =
        a + (l.map fun c => weightAt (RISK_WEIGHTS c.type) c.riskLevel * c.confidence).sum := by
    intro l
    induction l with
    | nil => intro a; simp
    | cons c cs ih => intro a; simp [List.foldl_cons, ih, add_assoc]
  simpa [totalScore, specScoreNumer] using key clauses 0

theorem maxPossibleScore_eq_sum (clauses : List ClauseMatch) :
    maxPossibleScore clauses = specScoreDenom clauses := by
  have key : ∀ (l : List ClauseMatch) (a : ℚ),
      l.foldl (fun acc c => acc + (RISK_WEIGHTS c.type).high) a =
        a + (l.map fun c => (RISK_WEIGHTS c.type).high).sum := by
    intro l
    induction l with
    | nil => intro a; simp
    | cons c cs ih => intro a; simp [List.foldl_cons, ih, add_assoc]
  simpa [maxPossibleScore, specScoreDenom] using key clauses 0

theorem weight_high_pos (t : ClauseType) : 0 < (RISK_WEIGHTS t).high := by
  cases t <;> norm_num [RISK_WEIGHTS]

theorem specScoreDenom_pos {c : ClauseMatch} {cs : List ClauseMatch} :
    0 < specScoreDenom (c :: cs) := by
  have h0 : ∀ l : List ClauseMatch, 0 ≤ specScoreDenom l := by
    intro l
    induction l with
    | nil => simp [specScoreDenom]
    | cons d ds ih =>
      have := weight_high_pos d.type
      simp only [specScoreDenom, List.map_cons, List.sum_cons] at *
      linarith
  have := weight_high_pos c.type
  have := h0 cs
  simp only [specScoreDenom, List.map_cons, List.sum_cons] at *
  linarith

theorem specScoreNumer_nonneg {clauses : List ClauseMatch}
    (hconf : ∀ c ∈ clauses, 0 ≤ c.confidence) : 0 ≤ specScoreNumer clauses := by
  induction clauses with
  | nil => simp [specScoreNumer]
  | cons c cs ih =>
    have hc := hconf c (by simp)
    have hw : 0 ≤ weightAt (RISK_WEIGHTS c.type) c.riskLevel := by
      cases c.type <;> cases c.riskLevel <;> norm_num [RISK_WEIGHTS, weightAt]
    have hcs : 0 ≤ specScoreNumer cs := ih fun d hd => hconf d (by simp [hd])
    have hterm : 0 ≤ weightAt (RISK_WEIGHTS c.type) c.riskLevel * c.confidence :=
      mul_nonneg hw hc
    simp only [specScoreNumer, List.map_cons, List.sum_cons] at *
    linarith

theorem jsRound_nonneg {q : ℚ} (hq : 0 ≤ q) : 0 ≤ jsRound q := by
  have : (0 : ℚ) ≤ q + 1/2 := by linarith
  exact Int.le_floor.2 (by exact_mod_cast this)

/-! ## Claim theorems: C2, C1, C10 -/

/-- Claim C2: for every classification result whose clause confidences are
nonnegative (every confidence the classifier produces is at least 0.75, see
C10), the overall risk score computed by the engine equals the
specification formula: the weighted confidence sum over the clauses divided
by the sum of the high weights, times 100, rounded and clamped to 0..100,
with the fixed weight table (liability high 30, low 8), and an empty clause
list scoring 0. -/
theorem C2_overall_score_formula (res : ClassificationResult)
    (hconf : ∀ c ∈ res.clauses, 0 ≤ c.confidence) :
    calculateOverallRiskScore res = specOverallScore res.clauses ∧
    0 ≤ calculateOverallRiskScore res ∧ calculateOverallRiskScore res ≤ 100 ∧
    (RISK_WEIGHTS ClauseType.liability).high = 30 ∧
    (RISK_WEIGHTS ClauseType.liability).low = 8 := by
  have key : ∀ clauses : List ClauseMatch, (∀ c ∈ clauses, 0 ≤ c.confidence) →
      min 100 (jsRound (if 0 < maxPossibleScore clauses then
          totalScore clauses / maxPossibleScore clauses * 100 else 0)) = specOverallScore clauses ∧
      0 ≤ min (100 : ℤ) (jsRound (if 0 < maxPossibleScore clauses then
          totalScore clauses / maxPossibleScore clauses * 100 else 0)) := by
    intro clauses hc
    cases clauses with
    | nil =>
      constructor
      · norm_num [maxPossibleScore, totalScore, specOverallScore, jsRound]
      · norm_num [maxPossibleScore, totalScore, jsRound]
    | cons c cs =>
      have hm : maxPossibleScore (c :: cs) = specScoreDenom (c :: cs) := maxPossibleScore_eq_sum _
      have ht : totalScore (c :: cs) = specScoreNumer (c :: cs) := totalScore_eq_sum _
      have hpos : 0 < specScoreDenom (c :: cs) := specScoreDenom_pos
      have hnn : 0 ≤ specScoreNumer (c :: cs) := specScoreNumer_nonneg hc
      have hquot : 0 ≤ specScoreNumer (c :: cs) / specScoreDenom (c :: cs) * 100 :=
        mul_nonneg (div_nonneg hnn hpos.le) (by norm_num)
      have hround := jsRound_nonneg hquot
      have hposif : 0 < maxPossibleScore (c :: cs) := by rw [hm]; exact hpos
      rw [if_pos hposif, hm, ht]
      have hmin0 : 0 ≤ min (100 : ℤ)
          (jsRound (specScoreNumer (c :: cs) / specScoreDenom (c :: cs) * 100)) :=
        le_min (by norm_num) hround
      constructor
      · simp only [specOverallScore]
        rw [max_eq_right hmin0]
      · exact hmin0
  have base := key res.clauses hconf
  exact ⟨base.1, base.2, min_le_left _ _, by norm_num [RISK_WEIGHTS], by norm_num [RISK_WEIGHTS]⟩

theorem C2_witness :
    calculateOverallRiskScore c2SampleResult = specOverallScore c2SampleResult.clauses ∧
    0 ≤ calculateOverallRiskScore c2SampleResult ∧
    calculateOverallRiskScore c2SampleResult ≤ 100 ∧
    (RISK_WEIGHTS ClauseType.liability).high = 30 ∧
    (RISK_WEIGHTS ClauseType.liability).low = 8 :=
  C2_overall_score_formula c2SampleResult (by
    intro c hc
    simp only [c2SampleResult, List.mem_singleton] at hc
    subst hc
    norm_num [c2SampleClause])

/-- Claim C1: the letter grade is a pure function of the overall risk score
with boundaries exactly at 20, 40, 60 and 80: every assessment stores
calculateRiskGrade of its own overallRiskScore field, and the grade
function maps scores at most 20 to A, 21..40 to B, 41..60 to C, 61..80 to D
and anything above 80 to F. -/
theorem C1_risk_grade_thresholds (s : ℤ) (res : ClassificationResult) (txt : String) :
    (assessRisk res txt).riskGrade = calculateRiskGrade (assessRisk res txt).overallRiskScore ∧
    (s ≤ 20 → calculateRiskGrade s = Grade.A) ∧
    (20 < s → s ≤ 40 → calculateRiskGrade s = Grade.B) ∧
    (40 < s → s ≤ 60 → calculateRiskGrade s = Grade.C) ∧
    (60 < s → s ≤ 80 → calculateRiskGrade s = Grade.D) ∧
    (80 < s → calculateRiskGrade s = Grade.F) := by
  refine ⟨rfl, fun h => ?_, fun h1 h2 => ?_, fun h1 h2 => ?_, fun h1 h2 => ?_, fun h => ?_⟩
  · unfold calculateRiskGrade
    rw [if_pos h]
  · unfold calculateRiskGrade
    rw [if_neg (by omega), if_pos h2]
  · unfold calculateRiskGrade
    rw [if_neg (by omega), if_neg (by omega), if_pos h2]
  · unfold calculateRiskGrade
    rw [if_neg (by omega), if_neg (by omega), if_neg (by omega), if_pos h2]
  · unfold calculateRiskGrade
    rw [if_neg (by omega), if_neg (by omega), if_neg (by omega), if_neg (by omega)]

theorem C1_witness :
    (assessRisk emptyResult "").riskGrade =
      calculateRiskGrade (assessRisk emptyResult "").overallRiskScore ∧
    calculateRiskGrade 20 = Grade.A ∧ calculateRiskGrade 21 = Grade.B ∧
    calculateRiskGrade 40 = Grade.B ∧ calculateRiskGrade 41 = Grade.C ∧
    calculateRiskGrade 60 = Grade.C ∧ calculateRiskGrade 61 = Grade.D ∧
    calculateRiskGrade 80 = Grade.D ∧ calculateRiskGrade 81 = Grade.F :=
  ⟨(C1_risk_grade_thresholds 20 emptyResult "").1,
   (C1_risk_grade_thresholds 20 emptyResult "").2.1 (by decide),
   (C1_risk_grade_thresholds 21 emptyResult "").2.2.1 (by decide) (by decide),
   (C1_risk_grade_thresholds 40 emptyResult "").2.2.1 (by decide) (by decide),
   (C1_risk_grade_thresholds 41 emptyResult "").2.2.2.1 (by decide) (by decide),
   (C1_risk_grade_thresholds 60 emptyResult "").2.2.2.1 (by decide) (by decide),
   (C1_risk_grade_thresholds 61 emptyResult "").2.2.2.2.1 (by decide) (by decide),
   (C1_risk_grade_thresholds 80 emptyResult "").2.2.2.2.1 (by decide) (by decide),
   (C1_risk_grade_thresholds 81 emptyResult "").2.2.2.2.2 (by decide)⟩

/-- Claim C10: every confidence value the classifier can produce lies in the
closed interval from 0.75 to 0.98 (the base confidence 0.75 is a lower
bound, tighter than the 0-to-0.98 invariant stated in the specification),
and it is always an integer number of hundredths, i.e. rounded to two
decimal places.  The theorem quantifies over all values of the regex-derived
counters, hence over all input texts. -/
theorem round2_bounds (c : ℚ) (h1 : (0.75 : ℚ) ≤ c) (h2 : c ≤ 0.98) :
    (0.75 : ℚ) ≤ (jsRound (c * 100) : ℚ) / 100 ∧
    (jsRound (c * 100) : ℚ) / 100 ≤ 0.98 ∧
    ∃ n : ℕ, (jsRound (c * 100) : ℚ) / 100 = (n : ℚ) / 100 := by
  have hfl_low : (75 : ℤ) ≤ jsRound (c * 100) := by
    apply Int.le_floor.2
    push_cast
    linarith
  have hfl_high : jsRound (c * 100) ≤ 98 := by
    have h3 : jsRound (c * 100) < 99 := by
      apply Int.floor_lt.2
      push_cast
      linarith
    omega
  have hcast_low : (75 : ℚ) ≤ (jsRound (c * 100) : ℚ) := by exact_mod_cast hfl_low
  have hcast_high : (jsRound (c * 100) : ℚ) ≤ 98 := by exact_mod_cast hfl_high
  refine ⟨by linarith, by linarith, (jsRound (c * 100)).toNat, ?_⟩
  congr 1
  exact_mod_cast (Int.toNat_of_nonneg (by omega)).symm

theorem C10_confidence_bounds (relevantWords contextWords textLength : ℕ) :
    (0.75 : ℚ) ≤ calculateConfidence relevantWords contextWords textLength ∧
    calculateConfidence relevantWords contextWords textLength ≤ 0.98 ∧
    ∃ n : ℕ, calculateConfidence relevantWords contextWords textLength = (n : ℚ) / 100 := by
  have hbonus : 0 ≤ min (0.15 : ℚ) ((textLength : ℚ) / 1000) :=
    le_min (by norm_num) (by positivity)
  have h10 : (0 : ℚ) < max (contextWords : ℚ) 10 :=
    lt_of_lt_of_le (by norm_num) (le_max_right _ _)
  have hfrac : 0 ≤ ((relevantWords : ℚ) / (max (contextWords : ℚ) 10)) * 0.2 := by
    have := div_nonneg (by positivity : (0:ℚ) ≤ (relevantWords : ℚ)) (le_of_lt h10)
    linarith
  have hlow : (0.75 : ℚ) ≤ min 0.98 ((0.75 : ℚ) +
      ((relevantWords : ℚ) / (max (contextWords : ℚ) 10)) * 0.2 +
      min (0.15 : ℚ) ((textLength : ℚ) / 1000)) :=
    le_min (by norm_num) (by linarith)
  have hhigh : min 0.98 ((0.75 : ℚ) +
      ((relevantWords : ℚ) / (max (contextWords : ℚ) 10)) * 0.2 +
      min (0.15 : ℚ) ((textLength : ℚ) / 1000)) ≤ 0.98 := min_le_left _ _
  exact round2_bounds _ hlow hhigh

/-! ## Claim C3: critical pattern forcing -/

/-- Every factor produced by the critical-pattern scan has severity critical. -/
theorem criticalFactors_severity (res : ClassificationResult) (lower : List Char) :
    ∀ f ∈ criticalFactors res lower, f.severity = Severity.critical := by
  intro f hf
  rw [criticalFactors] at hf
  obtain ⟨p, _, heq⟩ := List.mem_filterMap.1 hf
  by_cases hc : jsIncludes lower p.2 = true
  · rw [if_pos hc] at heq
    cases heq
    rfl
  · rw [if_neg hc] at heq
    cases heq

/-- Claim C3: whenever the document text contains the substring
"unlimited liability" in any letter case (i.e. the lowercased text contains
the pattern), the assessment has at least one risk factor of severity
critical and the financial impact cost risk tier is critical, whatever the
classification result contains. -/
theorem C3_unlimited_liability (res : ClassificationResult) (documentText : String)
    (h : jsIncludes (lowerStr documentText) "unlimited liability" = true) :
    (∃ f ∈ (assessRisk res documentText).riskFactors, f.severity = Severity.critical) ∧
    (assessRisk res documentText).financialImpact.costRisk = Severity.critical := by
  constructor
  · have hf : c3Factor res ∈ criticalFactors res (lowerStr documentText) := by
      unfold criticalFactors
      refine List.mem_filterMap.2 ⟨(0, "unlimited liability"), by decide, ?_⟩
      rw [if_pos h]
      rfl
    refine ⟨c3Factor res, ?_,
      criticalFactors_severity res (lowerStr documentText) _ hf⟩
    show c3Factor res ∈ identifyRiskFactors res documentText
    rw [identifyRiskFactors]
    exact (List.perm_insertionSort _ _).mem_iff.2
      (List.mem_append.2 (Or.inl (List.mem_append.2 (Or.inl hf))))
  · show (assessFinancialImpact res documentText).costRisk = Severity.critical
    rw [assessFinancialImpact, if_pos (by rw [h]; rfl)]

theorem C3_witness :
    (∃ f ∈ (assessRisk emptyResult c3SampleText).riskFactors,
      f.severity = Severity.critical) ∧
    (assessRisk emptyResult c3SampleText).financialImpact.costRisk = Severity.critical :=
  C3_unlimited_liability emptyResult c3SampleText (by decide)

/-! ## Claim C6: risk factors sorted by severity -/

theorem identifyRiskFactors_pairwise (res : ClassificationResult) (txt : String) :
    List.Pairwise (fun a b : RiskFactor => severityRank b.severity ≤ severityRank a.severity)
      (identifyRiskFactors res txt) := by
  rw [identifyRiskFactors]
  haveI hTot : IsTotal RiskFactor
      (fun a b => severityRank b.severity ≤ severityRank a.severity) :=
    ⟨fun a b => le_total _ _⟩
  haveI hTr : IsTrans RiskFactor
      (fun a b => severityRank b.severity ≤ severityRank a.severity) :=
    ⟨fun a b c hab hbc => le_trans hbc hab⟩
  exact List.sorted_insertionSort _ _

/-- Claim C6: in every assessment the risk factor list is sorted
non-increasingly by severity rank (critical 4, high 3, medium 2, low 1):
each adjacent pair is ordered. -/
theorem C6_risk_factors_sorted (res : ClassificationResult) (txt : String)
    (i : ℕ) (h : i + 1 < (assessRisk res txt).riskFactors.length) :
    severityRank (((assessRisk res txt).riskFactors.get ⟨i + 1, h⟩).severity) ≤
    severityRank (((assessRisk res txt).riskFactors.get
      ⟨i, Nat.lt_of_succ_lt h⟩).severity) := by
  have hp : List.Pairwise
      (fun a b : RiskFactor => severityRank b.severity ≤ severityRank a.severity)
      (assessRisk res txt).riskFactors := identifyRiskFactors_pairwise res txt
  exact List.pairwise_iff_get.1 hp ⟨i, Nat.lt_of_succ_lt h⟩ ⟨i + 1, h⟩ (Nat.lt_succ_self i)

theorem C6_witness :
    severityRank (((assessRisk emptyResult "").riskFactors.get
      ⟨1, by decide⟩).severity) ≤
    severityRank (((assessRisk emptyResult "").riskFactors.get
      ⟨0, by decide⟩).severity) :=
  C6_risk_factors_sorted emptyResult "" 0 (by decide)

/-! ## Claim C4: deduplication keeps the first occurrence, not the
highest-confidence one -/

/-- If a predicate holds at position i, findIndex stops at or before i. -/
theorem findIdx_le_of_pred {α : Type} (p : α → Bool) :
    ∀ (l : List α) (i : ℕ) (hi : i < l.length),
      p (l.get ⟨i, hi⟩) = true → l.findIdx p ≤ i := by
  intro l
  induction l with
  | nil => intro i hi; simp at hi
  | cons a t ih =>
    intro i hi hp
    cases hpa : p a with
    | true => simp [List.findIdx_cons, hpa]
    | false =>
      cases i with
      | zero =>
        have hpa2 : p a = true := hp
        rw [hpa] at hpa2
        cases hpa2
      | succ n =>
        simp only [List.findIdx_cons, hpa, cond_false]
        have := ih n (Nat.lt_of_succ_lt_succ hi) (by simpa using hp)
        omega

/-- Counterexample to claim C4 as stated: two liability matches whose start
offsets differ by 50 are deduplicated, but the survivor is the first
accumulated match (confidence 0.8), not the higher-confidence one (0.9). -/
theorem C4_counterexample :
    c4LowFirst.type = c4HighSecond.type ∧
    ((c4HighSecond.startIndex : ℤ) - (c4LowFirst.startIndex : ℤ)).natAbs < 100 ∧
    c4LowFirst.confidence < c4HighSecond.confidence ∧
    uniqueClauses [c4LowFirst, c4HighSecond] = [c4LowFirst] ∧
    c4HighSecond ∉ uniqueClauses [c4LowFirst, c4HighSecond] := by
  decide

/-- Claim C4 amended: when two matches share a clause type and their start
offsets are within 100 characters, the later of the two in accumulation
order is dropped (the first occurrence wins, regardless of confidence); the
surviving matches are then sorted by confidence descending and truncated to
the top 20, and every survivor comes from the input list. -/
theorem C4_dedup_first_wins (l : List ClauseMatch) (i j : ℕ) (hij : i < j)
    (hj : j < l.length)
    (hty : (l.get ⟨i, lt_trans hij hj⟩).type = (l.get ⟨j, hj⟩).type)
    (hnear : ((l.get ⟨i, lt_trans hij hj⟩).startIndex : ℤ) -
        ((l.get ⟨j, hj⟩).startIndex : ℤ) < 100 ∧
      ((l.get ⟨j, hj⟩).startIndex : ℤ) -
        ((l.get ⟨i, lt_trans hij hj⟩).startIndex : ℤ) < 100) :
    keepIdx l j (l.get ⟨j, hj⟩) = false ∧
    List.Pairwise (fun a b : ClauseMatch => b.confidence ≤ a.confidence) (uniqueClauses l) ∧
    (uniqueClauses l).length ≤ 20 ∧
    ∀ c ∈ uniqueClauses l, c ∈ l := by
  refine ⟨?_, ?_, ?_, ?_⟩
  · have hpred : dupPred (l.get ⟨j, hj⟩) (l.get ⟨i, lt_trans hij hj⟩) = true := by
      simp only [dupPred, Bool.and_eq_true, decide_eq_true_eq]
      exact ⟨⟨hnear.1, hnear.2⟩, hty⟩
    have hle : l.findIdx (dupPred (l.get ⟨j, hj⟩)) ≤ i :=
      findIdx_le_of_pred _ l i (lt_trans hij hj) hpred
    rw [keepIdx]
    rw [beq_eq_false_iff_ne]
    omega
  · haveI hTot : IsTotal ClauseMatch (fun a b => b.confidence ≤ a.confidence) :=
      ⟨fun a b => le_total _ _⟩
    haveI hTr : IsTrans ClauseMatch (fun a b => b.confidence ≤ a.confidence) :=
      ⟨fun a b c hab hbc => le_trans hbc hab⟩
    have hp : List.Pairwise (fun a b : ClauseMatch => b.confidence ≤ a.confidence)
        (List.insertionSort (fun a b => b.confidence ≤ a.confidence) (uniqueFiltered l)) :=
      List.sorted_insertionSort _ _
    exact hp.sublist (List.take_sublist _ _)
  · exact le_trans (List.length_take_le _ _) (le_refl 20)
  · intro c hc
    have h1 : c ∈ List.insertionSort (fun a b => b.confidence ≤ a.confidence)
        (uniqueFiltered l) :=
      (List.take_sublist _ _).mem hc
    have h2 : c ∈ uniqueFiltered l := (List.perm_insertionSort _ _).mem_iff.1 h1
    have h3 : List.Sublist (uniqueFiltered l) l := by
      rw [uniqueFiltered]
      have hs : List.Sublist (l.enum.filter fun p => keepIdx l p.1 p.2) l.enum :=
        List.filter_sublist _
      have hmap := hs.map Prod.snd
      rwa [List.enum_map_snd] at hmap
    exact h3.mem h2

theorem C4_dedup_witness :
    keepIdx [c4LowFirst, c4HighSecond] 1
      ([c4LowFirst, c4HighSecond].get ⟨1, by decide⟩) = false ∧
    List.Pairwise (fun a b : ClauseMatch => b.confidence ≤ a.confidence)
      (uniqueClauses [c4LowFirst, c4HighSecond]) ∧
    (uniqueClauses [c4LowFirst, c4HighSecond]).length ≤ 20 ∧
    ∀ c ∈ uniqueClauses [c4LowFirst, c4HighSecond], c ∈ [c4LowFirst, c4HighSecond] :=
  C4_dedup_first_wins [c4LowFirst, c4HighSecond] 0 1 (by decide) (by decide)
    (by decide) (by decide)

/-! ## Claim C5: summary tallies -/

/-- The three risk levels partition any clause list. -/
theorem riskLevel_partition (l : List ClauseMatch) :
    l.length = (l.filter fun c => decide (c.riskLevel = RiskLevel.high)).length +
      (l.filter fun c => decide (c.riskLevel = RiskLevel.medium)).length +
      (l.filter fun c => decide (c.riskLevel = RiskLevel.low)).length := by
  induction l with
  | nil => rfl
  | cons c cs ih =>
    cases hc : c.riskLevel <;>
      simp [List.filter_cons, hc, ih] <;> omega

/-- Claim C5: for every classification result assembled by classifyDocument
from any accumulated match list, totalClauses equals the length of the
clause list and equals the sum of the three per-tier counts, the clause
list has at most 20 entries, and an empty accumulation (clause-free text)
yields an empty clause list with an all-zero summary. -/
theorem C5_summary_consistent (allClauses : List ClauseMatch) :
    (classifyDocumentResult allClauses).summary.totalClauses =
      (classifyDocumentResult allClauses).clauses.length ∧
    (classifyDocumentResult allClauses).summary.totalClauses =
      (classifyDocumentResult allClauses).summary.highRiskClauses +
      (classifyDocumentResult allClauses).summary.mediumRiskClauses +
      (classifyDocumentResult allClauses).summary.lowRiskClauses ∧
    (classifyDocumentResult allClauses).clauses.length ≤ 20 ∧
    (allClauses = [] →
      (classifyDocumentResult allClauses).clauses = [] ∧
      (classifyDocumentResult allClauses).summary = ⟨0, 0, 0, 0⟩) := by
  refine ⟨rfl, ?_, ?_, ?_⟩
  · exact riskLevel_partition (uniqueClauses allClauses)
  · exact List.length_take_le _ _
  · intro h
    subst h
    exact ⟨rfl, rfl⟩

theorem C5_witness :
    (classifyDocumentResult []).summary.totalClauses =
      (classifyDocumentResult []).clauses.length ∧
    (classifyDocumentResult []).summary.totalClauses =
      (classifyDocumentResult []).summary.highRiskClauses +
      (classifyDocumentResult []).summary.mediumRiskClauses +
      (classifyDocumentResult []).summary.lowRiskClauses ∧
    (classifyDocumentResult []).clauses.length ≤ 20 ∧
    ((classifyDocumentResult []).clauses = [] ∧
      (classifyDocumentResult []).summary = ⟨0, 0, 0, 0⟩) :=
  ⟨(C5_summary_consistent []).1, (C5_summary_consistent []).2.1,
   (C5_summary_consistent []).2.2.1, (C5_summary_consistent []).2.2.2 rfl⟩

/-! ## Claims C7 and C8: summarizer key points, summary and fallback -/

/-- A string extended on the right keeps its first character. -/
theorem starts_append (c : Char) (s x : String) (t : List Char)
    (h : s.toList = c :: t) : ∃ u, (s ++ x).toList = c :: u := by
  refine ⟨t ++ x.toList, ?_⟩
  show s.toList ++ x.toList = c :: (t ++ x.toList)
  rw [h]
  rfl

/-- The head of a dropWhile result falsifies the predicate. -/
theorem dropWhile_head_false (p : Char → Bool) :
    ∀ (l : List Char) (c : Char) (t : List Char),
      l.dropWhile p = c :: t → p c = false := by
  intro l
  induction l with
  | nil => intro c t h; cases h
  | cons a as ih =>
    intro c t h
    rw [List.dropWhile_cons] at h
    by_cases hpa : p a = true
    · rw [if_pos hpa] at h
      exact ih c t h
    · rw [if_neg hpa] at h
      cases h
      exact Bool.eq_false_iff.2 hpa

/-- The first character of a trimmed string is not whitespace. -/
theorem jsTrim_starts_not_ws (x : String) (c : Char) (t : List Char)
    (h : (jsTrim x).toList = c :: t) : c.isWhitespace = false := by
  have hsuf : ((x.toList.dropWhile Char.isWhitespace).reverse.dropWhile Char.isWhitespace)
      <:+ (x.toList.dropWhile Char.isWhitespace).reverse := List.dropWhile_suffix _
  have hpre := List.reverse_prefix.2 hsuf
  rw [List.reverse_reverse] at hpre
  have h2 : (c :: t) <+: (x.toList.dropWhile Char.isWhitespace) := by
    rw [← h]
    exact hpre
  obtain ⟨r, hr⟩ := h2
  exact dropWhile_head_false Char.isWhitespace x.toList c (t ++ r)
    (by rw [← hr, List.cons_append])

/-- A string starting with a non-whitespace character trims to a nonempty
string. -/
theorem jsTrim_ne_empty (s : String) (c : Char) (t : List Char)
    (hs : s.toList = c :: t) (hc : c.isWhitespace = false) : jsTrim s ≠ "" := by
  intro hemp
  have hL : (((s.toList.dropWhile Char.isWhitespace).reverse.dropWhile
      Char.isWhitespace).reverse) = [] := congrArg String.toList hemp
  rw [List.reverse_eq_nil_iff, List.dropWhile_eq_nil_iff] at hL
  have hd : s.toList.dropWhile Char.isWhitespace = c :: t := by
    rw [hs, List.dropWhile_cons, if_neg (by simp [hc])]
  have hcmem : c ∈ (s.toList.dropWhile Char.isWhitespace).reverse := by
    rw [hd]
    simp
  have hws := hL c hcmem
  simp [hc] at hws

/-- Every extracted original sentence is longer than 15 characters and is
the trim of some raw split segment. -/
theorem extractOriginalSentences_mem (text : String) (s : String)
    (hs : s ∈ extractOriginalSentences text) :
    15 < s.length ∧ ∃ raw, s = jsTrim raw := by
  unfold extractOriginalSentences at hs
  have hs1 : s ∈ ((jsSplitSentences text).map jsTrim).filter
      fun s => decide (15 < s.length) := List.mem_of_mem_filter hs
  have hlen := List.of_mem_filter hs1
  have hs2 : s ∈ (jsSplitSentences text).map jsTrim := List.mem_of_mem_filter hs1
  obtain ⟨raw, _, hraw⟩ := List.mem_map.1 hs2
  exact ⟨by simpa using hlen, raw, hraw.symm⟩

/-- Every selected top sentence is one of the original sentences. -/
theorem topSummarySentences_mem (originalSentences : List String)
    (themes : List (String × ℚ)) (terms : List String) (x : ScoredSentenceIdx)
    (hx : x ∈ topSummarySentences originalSentences themes terms) :
    x.sentence ∈ originalSentences := by
  unfold topSummarySentences at hx
  have h1 := (List.perm_insertionSort _ _).mem_iff.1 hx
  have h2 := (List.take_sublist _ _).mem h1
  have h3 := (List.perm_insertionSort _ _).mem_iff.1 h2
  obtain ⟨p, hp, hpx⟩ := List.mem_map.1 h3
  have hmem : p.2 ∈ originalSentences := by
    have hmap : p.2 ∈ originalSentences.enum.map Prod.snd :=
      List.mem_map.2 ⟨p, hp, rfl⟩
    rwa [List.enum_map_snd] at hmap
  rw [← hpx]
  exact hmem

theorem topSummarySentences_length (originalSentences : List String)
    (themes : List (String × ℚ)) (terms : List String) :
    (topSummarySentences originalSentences themes terms).length =
      min 8 originalSentences.length := by
  unfold topSummarySentences
  rw [List.length_insertionSort, List.length_take, List.length_insertionSort,
    List.length_map, List.enum_length]
  exact min_eq_left (min_le_right 8 _)

/-- The enhancement step only appends to the sentence. -/
theorem enhancedSentence_starts (themes : List (String × ℚ)) (used : List String)
    (sentence : String) :
    ∃ r, (enhancedSentence themes used sentence).1.toList = sentence.toList ++ r := by
  unfold enhancedSentence
  cases hth : identifySentenceThemes sentence themes with
  | nil => exact ⟨[], by simp⟩
  | cons th rest =>
    show ∃ r, (if String.mk (lowerStr (getLegalEnhancement th)) ∈ used then
        (sentence, used)
      else (sentence ++ ", establishing " ++ getLegalEnhancement th,
        String.mk (lowerStr (getLegalEnhancement th)) :: used)).1.toList =
      sentence.toList ++ r
    by_cases hmem : String.mk (lowerStr (getLegalEnhancement th)) ∈ used
    · rw [if_pos hmem]
      exact ⟨[], by simp⟩
    · rw [if_neg hmem]
      refine ⟨(", establishing " ++ getLegalEnhancement th).toList, ?_⟩
      show (sentence.toList ++ ", establishing ".toList) ++
        (getLegalEnhancement th).toList = _
      rw [List.append_assoc]
      rfl

/-- The first loop iteration starts the summary with the first top
sentence. -/
theorem summaryStep_zero (themes : List (String × ℚ)) (terms : List String)
    (st : SummaryBuild) (t0 : ScoredSentenceIdx) :
    ∃ r, (summaryStep themes terms st (0, t0)).summary.toList =
      t0.sentence.toList ++ r := by
  obtain ⟨r, hr⟩ := enhancedSentence_starts themes st.usedTerms t0.sentence
  refine ⟨r, ?_⟩
  have hred : (summaryStep themes terms st (0, t0)).summary =
      (enhancedSentence themes st.usedTerms t0.sentence).1 := by
    simp [summaryStep]
  rw [hred]
  exact hr

/-- Later loop iterations only append to the summary. -/
theorem summaryStep_pos (themes : List (String × ℚ)) (terms : List String)
    (st : SummaryBuild) (p : ℕ × ScoredSentenceIdx) (hp : p.1 ≠ 0) :
    ∃ r, (summaryStep themes terms st p).summary.toList =
      st.summary.toList ++ r := by
  show ∃ r, (if p.1 = 0 then _ else st.summary ++ " " ++
    (summaryTransitions.getD (min (p.1 - 1) 7) "") ++ " " ++
    lowerFirst (enhancedSentence themes st.usedTerms p.2.sentence).1).toList =
    st.summary.toList ++ r
  rw [if_neg hp]
  refine ⟨(" " ++ (summaryTransitions.getD (min (p.1 - 1) 7) "") ++ " " ++
    lowerFirst (enhancedSentence themes st.usedTerms p.2.sentence).1).toList, ?_⟩
  show ((((st.summary.toList ++ " ".toList) ++
    (summaryTransitions.getD (min (p.1 - 1) 7) "").toList) ++ " ".toList) ++
    (lowerFirst (enhancedSentence themes st.usedTerms p.2.sentence).1).toList) = _
  simp [List.append_assoc]

/-- Folding the loop over entries with nonzero indices only appends. -/
theorem foldl_summaryStep_starts (themes : List (String × ℚ)) (terms : List String) :
    ∀ (l : List (ℕ × ScoredSentenceIdx)) (st : SummaryBuild),
      (∀ p ∈ l, p.1 ≠ 0) →
      ∃ r, (l.foldl (summaryStep themes terms) st).summary.toList =
        st.summary.toList ++ r := by
  intro l
  induction l with
  | nil =>
    intro st h
    exact ⟨[], by simp⟩
  | cons p ps ih =>
    intro st h
    obtain ⟨r1, hr1⟩ := summaryStep_pos themes terms st p (h p (by simp))
    obtain ⟨r2, hr2⟩ := ih (summaryStep themes terms st p) fun q hq => h q (by simp [hq])
    refine ⟨r1 ++ r2, ?_⟩
    rw [List.foldl_cons, hr2, hr1, List.append_assoc]

/-- Indices of enumFrom start at the base. -/
theorem enumFrom_fst_ge {α : Type} :
    ∀ (l : List α) (n : ℕ) (p : ℕ × α), p ∈ List.enumFrom n l → n ≤ p.1 := by
  intro l
  induction l with
  | nil => intro n p h; cases h
  | cons a as ih =>
    intro n p h
    rw [List.enumFrom_cons] at h
    rcases List.mem_cons.1 h with h1 | h1
    · subst h1
      exact le_refl n
    · have := ih (n + 1) p h1
      omega

/-- appendRemaining keeps the first character of a nonempty summary. -/
theorem appendRemaining_starts (remaining : List String) (st : String) (c : Char)
    (h : ∃ t, st.toList = c :: t) :
    ∃ t, (appendRemaining st remaining).toList = c :: t := by
  unfold appendRemaining
  have key : ∀ (l : List (ℕ × String)) (s : String), (∃ t, s.toList = c :: t) →
      ∃ t, (l.foldl (fun summary p =>
        if 0 < summary.length then
          summary ++ " " ++ (remainingTransitions.getD (min p.1 3) "") ++ " " ++
            lowerFirst p.2
        else p.2) s).toList = c :: t := by
    intro l
    induction l with
    | nil => intro s hs; exact hs
    | cons p ps ih =>
      intro s hs
      obtain ⟨t, ht⟩ := hs
      rw [List.foldl_cons]
      apply ih
      have hpos : 0 < s.length := by
        show 0 < s.toList.length
        rw [ht]
        simp
      rw [if_pos hpos]
      obtain ⟨t1, ht1⟩ := starts_append c s " " t ht
      obtain ⟨t2, ht2⟩ := starts_append c _ _ t1 ht1
      obtain ⟨t3, ht3⟩ := starts_append c _ _ t2 ht2
      obtain ⟨t4, ht4⟩ := starts_append c _ _ t3 ht3
      exact ⟨t4, ht4⟩
  exact key remaining.enum st h

/-- appendUnusedTerms keeps the first character. -/
theorem appendUnusedTerms_starts (summary : String) (terms used : List String)
    (c : Char) (h : ∃ t, summary.toList = c :: t) :
    ∃ t, (appendUnusedTerms summary terms used).toList = c :: t := by
  unfold appendUnusedTerms
  obtain ⟨t, ht⟩ := h
  by_cases hcond : 0 < (terms.filter fun term =>
      !(used.contains (String.mk (lowerStr term))) && isImportantTerm term).length ∧
      summary.length < 1500
  · rw [if_pos hcond]
    obtain ⟨t1, ht1⟩ := starts_append c summary _ t ht
    obtain ⟨t2, ht2⟩ := starts_append c _ _ t1 ht1
    obtain ⟨t3, ht3⟩ := starts_append c _ _ t2 ht2
    exact ⟨t3, ht3⟩
  · rw [if_neg hcond]
    exact ⟨t, ht⟩

/-- appendAdditional keeps the first character. -/
theorem appendAdditional_starts (summary additionalContent : String)
    (c : Char) (h : ∃ t, summary.toList = c :: t) :
    ∃ t, (appendAdditional summary additionalContent).toList = c :: t := by
  unfold appendAdditional
  obtain ⟨t, ht⟩ := h
  by_cases h10 : (summary.splitOn ". ").length < 10
  · rw [if_pos h10]
    by_cases hne : additionalContent ≠ ""
    · rw [if_pos hne]
      obtain ⟨t1, ht1⟩ := starts_append c summary _ t ht
      obtain ⟨t2, ht2⟩ := starts_append c _ _ t1 ht1
      exact ⟨t2, ht2⟩
    · rw [if_neg hne]
      exact ⟨t, ht⟩
  · rw [if_neg h10]
    exact ⟨t, ht⟩

/-- On the normal path the produced summary is nonempty for every document
and every oracle behaviour. -/
theorem normal_summary_ne_empty (text : String) (themes : List (String × ℚ))
    (terms : List String) (addl : String) :
    jsTrim (createSummaryFromOriginalSentences (extractOriginalSentences text)
      themes terms addl) ≠ "" := by
  cases hos : extractOriginalSentences text with
  | nil =>
    show jsTrim "The document contains legal provisions and agreements." ≠ ""
    decide
  | cons s0 rest =>
    show jsTrim (buildSummary (s0 :: rest) themes terms addl) ≠ ""
    have hlen : (topSummarySentences (s0 :: rest) themes terms).length =
        min 8 (s0 :: rest).length := topSummarySentences_length _ _ _
    cases htop : topSummarySentences (s0 :: rest) themes terms with
    | nil =>
      rw [htop] at hlen
      simp only [List.length_nil, List.length_cons] at hlen
      omega
    | cons t0 trest =>
      have ht0mem : t0.sentence ∈ (s0 :: rest) :=
        topSummarySentences_mem _ themes terms t0 (by rw [htop]; simp)
      have ht0props : 15 < t0.sentence.length ∧ ∃ raw, t0.sentence = jsTrim raw := by
        apply extractOriginalSentences_mem text
        rw [hos]
        exact ht0mem
      obtain ⟨hlen15, raw, hraw⟩ := ht0props
      obtain ⟨c, u, hcu⟩ : ∃ c u, t0.sentence.toList = c :: u := by
        cases hL : t0.sentence.toList with
        | nil =>
          exfalso
          have : t0.sentence.length = 0 := by
            show t0.sentence.toList.length = 0
            rw [hL]
            rfl
          omega
        | cons c u => exact ⟨c, u, rfl⟩
      have hcws : c.isWhitespace = false := by
        apply jsTrim_starts_not_ws raw c u
        rw [← hraw]
        exact hcu
      -- the built summary starts with c
      obtain ⟨r1, hr1⟩ := summaryStep_zero themes terms ⟨"", []⟩ t0
      obtain ⟨r2, hr2⟩ := foldl_summaryStep_starts themes terms
        (List.enumFrom 1 trest) (summaryStep themes terms ⟨"", []⟩ (0, t0))
        (fun p hp => by
          have := enumFrom_fst_ge trest 1 p hp
          omega)
      have hfold : ((topSummarySentences (s0 :: rest) themes terms).enum.foldl
          (summaryStep themes terms) ⟨"", []⟩).summary.toList =
          c :: (u ++ r1 ++ r2) := by
        rw [htop, List.enum_cons, List.foldl_cons, hr2, hr1, hcu]
        simp [List.append_assoc]
      have hstart : ∃ t, ((topSummarySentences (s0 :: rest) themes terms).enum.foldl
          (summaryStep themes terms) ⟨"", []⟩).summary.toList = c :: t :=
        ⟨u ++ r1 ++ r2, hfold⟩
      have h1 := appendRemaining_starts
        (remainingSummarySentences (s0 :: rest)
          (topSummarySentences (s0 :: rest) themes terms)
          ((topSummarySentences (s0 :: rest) themes terms).enum.foldl
            (summaryStep themes terms) ⟨"", []⟩).usedTerms)
        _ c hstart
      have h2 := appendUnusedTerms_starts _ terms
        ((topSummarySentences (s0 :: rest) themes terms).enum.foldl
          (summaryStep themes terms) ⟨"", []⟩).usedTerms c h1
      have h3 := appendAdditional_starts _ addl c h2
      obtain ⟨tfin, htfin⟩ := h3
      exact jsTrim_ne_empty _ c tfin htfin hcws

theorem extractKeyPointsFromOriginal_length (originalSentences : List String)
    (themes : List (String × ℚ)) (relationships : List (String × List String)) :
    5 ≤ (extractKeyPointsFromOriginal originalSentences themes relationships).length ∧
    (extractKeyPointsFromOriginal originalSentences themes relationships).length ≤ 8 := by
  unfold extractKeyPointsFromOriginal
  constructor
  · rw [List.length_take]
    refine le_min (by norm_num) ?_
    unfold padKeyPoints
    rw [List.length_append, List.length_replicate]
    omega
  · rw [List.length_take]
    exact min_le_left _ _

theorem fallbackSummary_summary_ne (text : String) :
    (fallbackSummary text).summary ≠ "" := by
  intro h
  have hL : (String.intercalate ". "
      (((jsSplitSentences text).filter fun s => decide (20 < (jsTrim s).length)).take 3)).toList
      ++ ".".toList = [] := congrArg String.toList h
  simp at hL

theorem fallbackSummary_keyPoints_le (text : String) :
    (fallbackSummary text).keyPoints.length ≤ 3 := by
  show ((((jsSplitSentences text).filter fun s =>
    decide (20 < (jsTrim s).length)).take 3).map jsTrim).length ≤ 3
  rw [List.length_map, List.length_take]
  exact min_le_left _ _

/-- Counterexample to claim C7 as stated: the 55-character nonempty document
c7Text reaches the fallback path (an exception in the try body) and the
returned keyPoints list is empty, far below the claimed minimum of five. -/
theorem C7_counterexample :
    c7Text ≠ "" ∧ 50 ≤ c7Text.length ∧
    (generateAbstractiveSummary (some ()) c7Text [] [] [] "" 0).keyPoints.length = 0 := by
  refine ⟨by decide, by decide, by decide⟩

/-- Claim C7 amended: for every input and every oracle behaviour the
summarizer returns a nonempty summary on both the normal and the fallback
path, and the normal path returns between 5 and 8 key points (filler
allowed); the fallback path, however, returns the first at most 3 long
sentences as key points, which can be fewer than 5. -/
theorem C7_keypoints_and_summary (text : String) (themes : List (String × ℚ))
    (relationships : List (String × List String)) (originalTerms : List String)
    (additionalContent : String) (confidenceValue : ℚ) :
    5 ≤ (normalAbstractiveResult text themes relationships originalTerms
      additionalContent confidenceValue).keyPoints.length ∧
    (normalAbstractiveResult text themes relationships originalTerms
      additionalContent confidenceValue).keyPoints.length ≤ 8 ∧
    (normalAbstractiveResult text themes relationships originalTerms
      additionalContent confidenceValue).summary ≠ "" ∧
    (fallbackSummary text).summary ≠ "" ∧
    (fallbackSummary text).keyPoints.length ≤ 3 := by
  refine ⟨(extractKeyPointsFromOriginal_length _ _ _).1,
    (extractKeyPointsFromOriginal_length _ _ _).2,
    ?_, fallbackSummary_summary_ne text, fallbackSummary_keyPoints_le text⟩
  exact normal_summary_ne_empty text themes originalTerms additionalContent

/-- Claim C8: whenever an exception is raised in the try body,
generateAbstractiveSummary returns (and never rethrows) the fallback
result: the first 3 sentences whose trimmed length exceeds 20 characters,
joined verbatim with a trailing period, confidence exactly 0.6 and method
rule-based. -/
theorem C8_exception_fallback (text : String) (themes : List (String × ℚ))
    (relationships : List (String × List String)) (originalTerms : List String)
    (additionalContent : String) (confidenceValue : ℚ) :
    generateAbstractiveSummary (some ()) text themes relationships originalTerms
      additionalContent confidenceValue = fallbackSummary text ∧
    (fallbackSummary text).summary = String.intercalate ". "
      (((jsSplitSentences text).filter fun s =>
        decide (20 < (jsTrim s).length)).take 3) ++ "." ∧
    (fallbackSummary text).keyPoints = (((jsSplitSentences text).filter fun s =>
      decide (20 < (jsTrim s).length)).take 3).map jsTrim ∧
    (fallbackSummary text).confidence = 0.6 ∧
    (fallbackSummary text).method = "rule-based" :=
  ⟨rfl, rfl, rfl, rfl, rfl⟩

/-! ## Claim C9: per-language translation failure handling -/

/-- A failing translation call returns the warning-prefixed original and
advances the call counter by exactly one: a single attempt, no retry. -/
theorem translateWithFallback_failure (tr : ℕ → String → String → Except Unit String)
    (languageNameOf : String → String) (k : ℕ) (text lang : String)
    (hfail : tr k text lang = .error ()) (hlang : lang ≠ "en")
    (hne : (jsTrim text).length ≠ 0) :
    translateWithFallback tr languageNameOf k text lang =
      ("[Translation service temporarily unavailable for " ++ languageNameOf lang ++
        "]\n\n" ++ text, k + 1) := by
  unfold translateWithFallback
  rw [if_neg hne, if_neg hlang, hfail]

/-- The batch produces one entry per requested language in order, and a
language whose translations always fail carries the annotated English
summary. -/
theorem batch_entries (tr : ℕ → String → String → Except Unit String)
    (nameOf : String → String) (es : String) (kps : List String) (text lang : String)
    (hfail : ∀ n t, tr n t lang = .error ()) (hlang : lang ≠ "en")
    (hne : (jsTrim es).length ≠ 0) :
    ∀ (ls : List String) (k : ℕ),
      ((generateMultilingualSummaries tr nameOf es kps text k ls).1.map
        fun e => e.languageCode) = ls ∧
      ∀ e ∈ (generateMultilingualSummaries tr nameOf es kps text k ls).1,
        e.languageCode = lang →
        e.summary = "[Translation service temporarily unavailable for " ++
          nameOf lang ++ "]\n\n" ++ es := by
  intro ls
  induction ls with
  | nil =>
    intro k
    exact ⟨rfl, fun e he => absurd he (List.not_mem_nil e)⟩
  | cons l rest ih =>
    intro k
    constructor
    · show ((processLanguage tr nameOf es kps text k l).1 ::
        (generateMultilingualSummaries tr nameOf es kps text
          (processLanguage tr nameOf es kps text k l).2 rest).1).map
          (fun e => e.languageCode) = l :: rest
      rw [List.map_cons, (ih ((processLanguage tr nameOf es kps text k l).2)).1]
      rfl
    · intro e he hcode
      have he2 : e = (processLanguage tr nameOf es kps text k l).1 ∨
          e ∈ (generateMultilingualSummaries tr nameOf es kps text
            (processLanguage tr nameOf es kps text k l).2 rest).1 :=
        List.mem_cons.1 he
      rcases he2 with he1 | he1
      · subst he1
        have hl : l = lang := hcode
        subst hl
        show (if l = "en" then (es, k) else translateWithFallback tr nameOf k es l).1 =
          "[Translation service temporarily unavailable for " ++ nameOf l ++ "]\n\n" ++ es
        rw [if_neg hlang,
          translateWithFallback_failure tr nameOf k es l (hfail k es) hlang hne]
      · exact (ih ((processLanguage tr nameOf es kps text k l).2)).2 e he1 hcode

/-- Claim C9: when translating to a non-English language fails, the
multilingual summarizer makes exactly one translation attempt (counter
advances by one, no retry), that language receives the original English
text behind the warning annotation, and the batch still produces one
summary per requested language in order. -/
theorem C9_translation_failure (tr : ℕ → String → String → Except Unit String)
    (nameOf : String → String) (es : String) (kps : List String) (text : String)
    (k : ℕ) (languages : List String) (lang : String)
    (hfail : ∀ n t, tr n t lang = Except.error ())
    (hlang : lang ≠ "en") (hne : (jsTrim es).length ≠ 0) :
    translateWithFallback tr nameOf k es lang =
      ("[Translation service temporarily unavailable for " ++ nameOf lang ++
        "]\n\n" ++ es, k + 1) ∧
    ((generateMultilingualSummaries tr nameOf es kps text k languages).1.map
      fun e => e.languageCode) = languages ∧
    ∀ e ∈ (generateMultilingualSummaries tr nameOf es kps text k languages).1,
      e.languageCode = lang →
      e.summary = "[Translation service temporarily unavailable for " ++ nameOf lang ++
        "]\n\n" ++ es :=
  ⟨translateWithFallback_failure tr nameOf k es lang (hfail k es) hlang hne,
   (batch_entries tr nameOf es kps text lang hfail hlang hne languages k).1,
   (batch_entries tr nameOf es kps text lang hfail hlang hne languages k).2⟩

theorem C9_witness :
    translateWithFallback c9Tr c9Name 0 "Hello summary" "hi" =
      ("[Translation service temporarily unavailable for " ++ c9Name "hi" ++ "]\n\n" ++
        "Hello summary", 0 + 1) ∧
    ((generateMultilingualSummaries c9Tr c9Name "Hello summary" ["point one"] "doc" 0
      ["en", "hi", "te"]).1.map fun e => e.languageCode) = ["en", "hi", "te"] ∧
    ∀ e ∈ (generateMultilingualSummaries c9Tr c9Name "Hello summary" ["point one"] "doc" 0
      ["en", "hi", "te"]).1, e.languageCode = "hi" →
      e.summary = "[Translation service temporarily unavailable for " ++ c9Name "hi" ++
        "]\n\n" ++ "Hello summary" :=
  C9_translation_failure c9Tr c9Name "Hello summary" ["point one"] "doc" 0
    ["en", "hi", "te"] "hi" (fun n t => rfl) (by decide) (by decide)
